import Mathlib

/-!
Shallow embedding of the RTP jitter buffer in `src/rtp_jitter.cpp` /
`src/rtp_jitter.h` (class `RTPJitter`), together with theorems settling the
frozen claims about its specification.

Modelling conventions:
* Machine integers are `Nat` with explicit reductions modulo `2^32` where the
  C++ uses `unsigned` / `uint32` arithmetic that can wrap.  The 16-bit
  sequence comparisons in `push`/`pop` are performed after integer promotion
  in C++ (`uint16` promotes to `int`), so `s < first - 1` over the signed
  integers is rendered as `s + 1 < first` over `Nat`, which agrees with the
  promoted semantics for all 16-bit values including `first = 0`.
* `ntohs` is modelled for the little-endian hosts the code targets: a 16-bit
  byte swap.  A packet's `seqRaw` field holds the stored (network byte order)
  sequence field; `ntohs16` decodes it.
* The monotonic clock is an explicit `now : Nat` argument (milliseconds);
  `timepoint::min()` is `none`.  When `_buffering_timestamp` is still
  `timepoint::min()` inside `pop`, the C++ elapsed duration is astronomically
  large, so the timer test is modelled as passing in that case.
* `_calc_jitter` mutates only the floating-point jitter statistics
  (`jitter`, `max_jitter`, `prev_arrival`, `prev_transit`,
  `prev_rx_timestamp`), none of which feed back into `push`/`pop` control
  flow; those floating-point fields are left out of the state.
* The C++ constructor leaves `_depth_ms` uninitialized when the buffer starts
  empty (`_clean_buffer` only runs on a nonempty buffer); the model uses the
  zero value that every scenario in the documentation assumes.
* In the overflow branch the C++ calls `front()`/`pop_front()` on the deque
  unconditionally; on an empty deque that is undefined behaviour.  The model
  makes that case total by leaving the buffer untouched there.
-/

/-- RESULT codes of `RTPJitter` (rtp_jitter.h). -/
inductive RESULT where
  | SUCCESS
  | BUFFERING
  | BAD_PACKET
  | BUFFER_OVERFLOW
  | BUFFER_EMPTY
  | DROPPED_PACKET
deriving DecidableEq, Repr

/-- RTP_PAYLOAD_DYNAMIC payload type code (rtp.h). -/
def RTP_PAYLOAD_DYNAMIC : Nat := 0x79

/-- byte swap of a 16-bit value: `ntohs`/`htons` on a little-endian host. -/
def ntohs16 (v : Nat) : Nat := (v % 256) * 256 + v / 256

/-- Packet carrier: the fields of class `RTPPacket` (rtp.h) that the jitter
buffer reads or writes.  `seqRaw` is the stored 16-bit sequence field of the
RTP header at `pData` (network byte order); `hasData` is whether `pData` is
non-null.  `nLen`, `payload_bytes` and the timestamp/flags header fields are
never consulted by `push`/`pop` (the timestamp feeds only the omitted
floating-point jitter estimator) and are not modelled. -/
structure RTPPacket where
  seqRaw : Nat
  payload_ms : Nat
  payload_type : Nat
  use_redundant_payload : Bool
  hasData : Bool
deriving DecidableEq, Repr

/-- decoded (host order) sequence number of a carrier. -/
def seqHost (p : RTPPacket) : Nat := ntohs16 p.seqRaw

/-- builds a carrier the way a producer does: decoded sequence `s`, payload
duration `pl` ms, carrier payload-type byte `pt`. -/
def mkpkt (s pl pt : Nat) : RTPPacket :=
  { seqRaw := ntohs16 s, payload_ms := pl, payload_type := pt,
    use_redundant_payload := false, hasData := true }

/-- 32-bit unsigned addition. -/
def u32add (a b : Nat) : Nat := (a + b) % 4294967296

/-- 32-bit unsigned subtraction (wraps on underflow, like C++ `unsigned`). -/
def u32sub (a b : Nat) : Nat := (a + (4294967296 - b % 4294967296)) % 4294967296

/-- 32-bit unsigned increment (`++counter` on a `uint32`). -/
def u32inc (a : Nat) : Nat := (a + 1) % 4294967296

/-- state of an `RTPJitter` instance (the fields of rtp_jitter.h). -/
structure JState where
  buffer : List RTPPacket
  nominal_depth_ms : Nat
  max_buffer_depth : Nat
  payload_sample_rate : Nat
  depth_ms : Nat
  first_buf_sequence : Nat
  last_buf_sequence : Nat
  last_pop_sequence : Nat
  buffering : Bool
  buffering_timestamp : Option Nat
  ooo_count : Nat
  empty_count : Nat
  overflow_count : Nat
deriving DecidableEq, Repr

/-- RTPJitter::set_depth: nominal := ms_depth; max := max_depth when
`max_depth >= ms_depth`, else `2 * nominal`. -/
def set_depth (st : JState) (ms_depth max_depth : Nat) : JState :=
  { st with
    nominal_depth_ms := ms_depth,
    max_buffer_depth := if ms_depth ≤ max_depth then max_depth else ms_depth * 2 }

/-- RTPJitter::init reached through the constructor: empty buffer, zeroed
sequence counters, depths via `set_depth(depth, 0)`, buffering on with no
timestamp, statistics reset (`_reset_buffer_stats`). -/
def initState (depth sample_rate : Nat) : JState :=
  set_depth
    { buffer := [], nominal_depth_ms := 0, max_buffer_depth := 0,
      payload_sample_rate := sample_rate, depth_ms := 0,
      first_buf_sequence := 0, last_buf_sequence := 0, last_pop_sequence := 0,
      buffering := true, buffering_timestamp := none,
      ooo_count := 0, empty_count := 0, overflow_count := 0 }
    depth 0

/-- ordered-insertion scan of RTPJitter::push (lines 180-186): walk the deque
from the head and insert before the first element whose STORED sequence field
(`item->sequence`, not passed through `ntohs`) exceeds the decoded sequence of
the new packet; if no element satisfies the comparison the loop terminates
without inserting. -/
def insertScan (s : Nat) (p : RTPPacket) : List RTPPacket → List RTPPacket
  | [] => []
  | q :: rest => if s < q.seqRaw then p :: q :: rest else q :: insertScan s p rest

/-- RTPJitter::push.  `now` is the monotonic clock reading in ms. -/
def push (st : JState) (now : Nat) (p : Option RTPPacket) : JState × RESULT :=
  match p with
  | none => (st, RESULT.BAD_PACKET)
  | some pkt =>
    if pkt.hasData = false then (st, RESULT.BAD_PACKET)
    else
      let rtp_sequence := ntohs16 pkt.seqRaw
      -- overflow check: drop the front packet when _depth_ms > _max_buffer_depth
      let ov : JState × RESULT :=
        if st.max_buffer_depth < st.depth_ms then
          match st.buffer with
          | old :: rest =>
            ({ st with buffer := rest,
                       depth_ms := u32sub st.depth_ms old.payload_ms,
                       overflow_count := u32inc st.overflow_count },
             RESULT.BUFFER_OVERFLOW)
          | [] =>  -- front() on an empty deque: undefined in C++, modelled as no-op
            ({ st with overflow_count := u32inc st.overflow_count },
             RESULT.BUFFER_OVERFLOW)
        else (st, RESULT.SUCCESS)
      let st1 := ov.1
      let rc := ov.2
      -- first packet since init: start the buffering clock
      let st2 :=
        if st1.buffering ∧ st1.buffering_timestamp = none then
          { st1 with buffering_timestamp := some now }
        else st1
      -- _calc_jitter(rtp): floating-point statistics only, omitted
      if st2.last_buf_sequence ≤ rtp_sequence
         ∨ (rtp_sequence = 0 ∧ st2.last_buf_sequence = 65535)
         ∨ st2.last_pop_sequence = st2.first_buf_sequence then
        let st3 := { st2 with buffer := st2.buffer ++ [pkt],
                              last_buf_sequence := rtp_sequence,
                              depth_ms := u32add st2.depth_ms pkt.payload_ms }
        let st4 :=
          if st3.buffer.length = 1 then
            { st3 with first_buf_sequence := rtp_sequence,
                       last_pop_sequence := rtp_sequence }
          else st3
        (st4, rc)
      else
        let st3 := { st2 with ooo_count := u32inc st2.ooo_count }
        if rtp_sequence + 1 < st3.first_buf_sequence then
          (st3, RESULT.BAD_PACKET)
        else if rtp_sequence + 1 = st3.first_buf_sequence then
          ({ st3 with buffer := pkt :: st3.buffer,
                      first_buf_sequence := rtp_sequence }, rc)
        else
          ({ st3 with buffer := insertScan rtp_sequence pkt st3.buffer }, rc)

/-- buffering-gate section at the top of RTPJitter::pop (lines 214-238):
re-enter buffering when the queue is observed empty; leave buffering when the
buffering timer has reached the nominal depth or the queue itself has. -/
def popGate (st : JState) (now : Nat) : JState :=
  match st.buffer with
  | [] =>
    let stA := if st.buffering then st else { st with buffering := true }
    { stA with empty_count := u32inc stA.empty_count }
  | _ :: _ =>
    if st.buffering then
      let timerDone : Bool :=
        match st.buffering_timestamp with
        | some t0 => decide (st.nominal_depth_ms ≤ now - t0)
        | none => true  -- elapsed time since timepoint::min() is enormous
      if timerDone = true ∨ st.nominal_depth_ms ≤ st.depth_ms then
        { st with buffering := false, buffering_timestamp := none }
      else st
    else st

/-- delivery section of RTPJitter::pop (lines 240-290), run on the state the
buffering gate produced. -/
def popDeliver (st1 : JState) : JState × RESULT × Option RTPPacket :=
  if st1.buffering then (st1, RESULT.BUFFERING, none)
  else
    match st1.buffer with
    | [] => (st1, RESULT.BUFFERING, none)  -- unreachable: empty buffer forces buffering above
    | bp :: rest =>
      if st1.last_pop_sequence = st1.first_buf_sequence
         ∨ st1.last_pop_sequence + 1 = st1.first_buf_sequence
         ∨ (st1.last_pop_sequence = 65535 ∧ st1.first_buf_sequence = 0)
         ∨ (bp.payload_type = RTP_PAYLOAD_DYNAMIC
            ∧ st1.last_pop_sequence + 2 = st1.first_buf_sequence) then
        if bp.payload_type = RTP_PAYLOAD_DYNAMIC
           ∧ st1.last_pop_sequence + 2 = st1.first_buf_sequence then
          -- redundancy recovery: mark the shared carrier and keep it queued
          let packet := { bp with use_redundant_payload := true }
          let stA := { st1 with buffer := packet :: rest,
                                last_pop_sequence := ntohs16 packet.seqRaw,
                                first_buf_sequence := ntohs16 packet.seqRaw }
          (stA, RESULT.SUCCESS, some packet)
        else
          -- normal case: remove the front packet
          let packet := { bp with use_redundant_payload := false }
          let stA := { st1 with buffer := rest,
                                depth_ms := u32sub st1.depth_ms packet.payload_ms,
                                last_pop_sequence := ntohs16 packet.seqRaw }
          let stB :=
            match stA.buffer with
            | [] => { stA with first_buf_sequence := stA.last_pop_sequence }
            | b :: _ => { stA with first_buf_sequence := ntohs16 b.seqRaw }
          (stB, RESULT.SUCCESS, some packet)
      else
        ({ st1 with last_pop_sequence := (st1.last_pop_sequence + 1) % 65536 },
         RESULT.DROPPED_PACKET, none)

/-- RTPJitter::pop.  Returns the updated state, the result code and the
delivered carrier (if any). -/
def pop (st : JState) (now : Nat) : JState × RESULT × Option RTPPacket :=
  popDeliver (popGate st now)

/-- RTPJitter::get_depth_ms. -/
def get_depth_ms (st : JState) : Nat := st.depth_ms

/-- RTPJitter::eot_detected: zero the sequence counters. -/
def eot_detected (st : JState) : JState :=
  { st with first_buf_sequence := 0, last_buf_sequence := 0, last_pop_sequence := 0 }

/-- fold a list of (arrival time, carrier) pairs through `push`. -/
def pushAll (st : JState) (ps : List (Nat × RTPPacket)) : JState :=
  ps.foldl (fun s pr => (push s pr.1 (some pr.2)).1) st

/-- claim C1 scenario: fresh buffer of nominal depth 60 ms, pushes of 20 ms
PCMU packets with sequences 10, 12, 11, 13 and no pops in between. -/
def C1state : JState :=
  pushAll (initState 60 8000)
    [(0, mkpkt 10 20 0), (0, mkpkt 12 20 0), (0, mkpkt 11 20 0), (0, mkpkt 13 20 0)]

/-- claim C2 scenario: pushes of P(10), P(12), a pop of P(10) after the
warmup timer, then a push of P(11), which immediately precedes the head. -/
def C2state : JState :=
  (push (pop (pushAll (initState 60 8000) [(0, mkpkt 10 20 0), (0, mkpkt 12 20 0)]) 60).1
    61 (some (mkpkt 11 20 0))).1

/-- claim C3 scenario: pushes of P(10), P(12), P(14), a pop of P(10) (burst
warmup: depth 60 ≥ nominal 60), then a push of P(13), which belongs strictly
between 12 and 14. -/
def C3state : JState :=
  (push (pop (pushAll (initState 60 8000)
      [(0, mkpkt 10 20 0), (0, mkpkt 12 20 0), (0, mkpkt 14 20 0)]) 0).1
    1 (some (mkpkt 13 20 0))).1

/-- claim C4 scenario: P(100), P(101), P(102) pushed at t = 0, 1, 2 ms into a
fresh buffer of nominal depth 60 ms. -/
def C4state : JState :=
  pushAll (initState 60 8000) [(0, mkpkt 100 20 0), (1, mkpkt 101 20 0), (2, mkpkt 102 20 0)]

/-- first pop of the C4 scenario, at t = 5 ms. -/
def C4r1 : JState × RESULT × Option RTPPacket := pop C4state 5

/-- second pop of the C4 scenario, at t = 61 ms. -/
def C4r2 : JState × RESULT × Option RTPPacket := pop C4r1.1 61

/-- third pop of the C4 scenario, at t = 62 ms. -/
def C4r3 : JState × RESULT × Option RTPPacket := pop C4r2.1 62

/-- fourth pop of the C4 scenario, at t = 63 ms. -/
def C4r4 : JState × RESULT × Option RTPPacket := pop C4r3.1 63

/-- buffer state of the C5 gap scenario after pushing the packets with decoded
sequences `a` and `b` (20 ms PCMU) into a fresh buffer of nominal depth 60. -/
def C5s2 (a b : Nat) : JState :=
  pushAll (initState 60 8000) [(0, mkpkt a 20 0), (0, mkpkt b 20 0)]

/-- first pop of the C5 gap scenario, after the 60 ms warmup timer. -/
def C5r1 (a b : Nat) : JState × RESULT × Option RTPPacket := pop (C5s2 a b) 60

/-- second pop of the C5 gap scenario. -/
def C5r2 (a b : Nat) : JState × RESULT × Option RTPPacket := pop (C5r1 a b).1 61

/-- third pop of the C5 gap scenario. -/
def C5r3 (a b : Nat) : JState × RESULT × Option RTPPacket := pop (C5r2 a b).1 62

/-- C5 counterexample trace: P(20) pushed and popped, the queue becomes empty,
and only then is P(22) pushed; r1 and r2 are the two delivery pops with no
other pop between them. -/
def C5xr1 : JState × RESULT × Option RTPPacket :=
  pop (push (initState 60 8000) 0 (some (mkpkt 20 20 0))).1 60

/-- C5 counterexample trace, continued: push of P(22) into the emptied queue,
then the immediately following pop. -/
def C5xr2 : JState × RESULT × Option RTPPacket :=
  pop (push C5xr1.1 61 (some (mkpkt 22 20 0))).1 62

/-- C6 counterexample trace: nominal depth 2 ms (max 4 ms); four 1 ms packets,
then a 10 ms packet, then another 1 ms packet, with no pops. -/
def C6xstate : JState :=
  pushAll (initState 2 8000)
    [(0, mkpkt 1 1 0), (0, mkpkt 2 1 0), (0, mkpkt 3 1 0), (0, mkpkt 4 1 0),
     (0, mkpkt 5 10 0), (0, mkpkt 6 1 0)]

/-- invariant for the amended claim C6: uniform payloads of `q` ms, maximum
depth `m`, consumer never popped (so `last_pop` still equals `first_buf`),
depth accounting exact, and the overflow bound. -/
def C6inv (m q : Nat) (st : JState) : Prop :=
  st.max_buffer_depth = m ∧
  st.last_pop_sequence = st.first_buf_sequence ∧
  (∀ p ∈ st.buffer, p.payload_ms = q) ∧
  st.depth_ms = (st.buffer.map RTPPacket.payload_ms).sum ∧
  st.depth_ms ≤ m + q

/-- head carrier of the C7 redundancy witness state: decoded sequence 32,
20 ms, DYNAMIC (0x79) payload type. -/
def C7hd : RTPPacket := mkpkt 32 20 0x79

/-- C7 witness state: P(32) buffered, last delivered sequence 30 (one packet,
sequence 31, lost), playout state. -/
def C7st : JState :=
  { buffer := [C7hd], nominal_depth_ms := 60, max_buffer_depth := 120,
    payload_sample_rate := 8000, depth_ms := 20, first_buf_sequence := 32,
    last_buf_sequence := 32, last_pop_sequence := 30, buffering := false,
    buffering_timestamp := none, ooo_count := 0, empty_count := 1,
    overflow_count := 0 }

/-- claim C8 scenario: pushes of P(0xFFFE), P(0xFFFF), P(0x0000), P(0x0001)
into a fresh buffer of nominal depth 60 ms. -/
def C8state : JState :=
  pushAll (initState 60 8000)
    [(0, mkpkt 0xFFFE 20 0), (0, mkpkt 0xFFFF 20 0),
     (0, mkpkt 0x0000 20 0), (0, mkpkt 0x0001 20 0)]

/-- first pop of the C8 scenario (depth 80 ≥ nominal 60 ends warmup). -/
def C8r1 : JState × RESULT × Option RTPPacket := pop C8state 60

/-- second pop of the C8 scenario. -/
def C8r2 : JState × RESULT × Option RTPPacket := pop C8r1.1 61

/-- third pop of the C8 scenario. -/
def C8r3 : JState × RESULT × Option RTPPacket := pop C8r2.1 62

/-- fourth pop of the C8 scenario. -/
def C8r4 : JState × RESULT × Option RTPPacket := pop C8r3.1 63

/-- C9 counterexample trace.  Pushes P(10), P(12), P(14), P(16); pops deliver
10, then 11 after a front insertion (whose payload is never added to
`depth_ms`), then 12; a pop reports sequence 13 dropped; P(13) is then
front-inserted and delivered together with 14, driving `depth_ms` into a
32-bit underflow.  The final push of P(15) therefore triggers the overflow
eviction of the sole queued carrier (16) and front-inserts P(15) into the
now-empty queue. -/
def C9xfinal : JState × RESULT :=
  let s6 := (push (pop (pushAll (initState 60 8000)
      [(0, mkpkt 10 20 0), (0, mkpkt 12 20 0), (0, mkpkt 14 20 0), (0, mkpkt 16 20 0)]) 0).1
      1 (some (mkpkt 11 20 0))).1
  let s9 := (pop (pop (pop s6 2).1 3).1 4).1
  let s12 := (pop (pop (push s9 5 (some (mkpkt 13 20 0))).1 6).1 7).1
  push s12 8 (some (mkpkt 15 20 0))

/-- claim C10 scenario: pushes of P(254), P(256), P(768), a pop of P(254),
then a push of P(300).  The stored network-order sequence fields of the queued
carriers 256 and 768 are the bytes-swapped values 1 and 3, so the middle
insertion scan of `push` never finds a larger stored field. -/
def C10final : JState × RESULT :=
  push (pop (pushAll (initState 60 8000)
      [(0, mkpkt 254 20 0), (0, mkpkt 256 20 0), (0, mkpkt 768 20 0)]) 0).1
    1 (some (mkpkt 300 20 0))

/-- C1: the claim asserts that pushing P(10), P(12), P(11), P(13) into a fresh
60 ms buffer (no pops in between) leaves the queue in ascending order
10,11,12,13 with ooo_count 1, and that four pops after warmup deliver
10,11,12,13.  The code instead appends every one of these packets, because the
`_last_pop_sequence == _first_buf_sequence` append clause holds until the
first pop, leaving the queue in arrival order 10,12,11,13 with ooo_count 0;
after the pop of 10 the next pop reports DROPPED_PACKET instead of delivering
11. -/
theorem C1_append_despite_out_of_order :
    C1state.buffer.map seqHost = [10, 12, 11, 13] ∧
    C1state.ooo_count = 0 ∧
    (pop C1state 60).2.1 = RESULT.SUCCESS ∧
    ((pop C1state 60).2.2.map seqHost) = some 10 ∧
    (pop (pop C1state 60).1 61).2.1 = RESULT.DROPPED_PACKET := by
  decide

/-- C2: the claim asserts that depth_ms always equals the sum of payload_ms
over the queued carriers, and that a push immediately preceding the head adds
its payload_ms to depth_ms.  The front-insertion branch of `push` does insert
the carrier at the front, set first_buf_seq and count it as out of order, but
never adds its payload to depth_ms: after P(10), P(12), pop of P(10), push of
P(11) the queue holds 40 ms of payload while depth_ms (as returned by
get_depth_ms) is 20. -/
theorem C2_front_insert_skips_depth :
    C2state.buffer.map seqHost = [11, 12] ∧
    C2state.first_buf_sequence = 11 ∧
    C2state.ooo_count = 1 ∧
    get_depth_ms C2state = 20 ∧
    (C2state.buffer.map RTPPacket.payload_ms).sum = 40 := by
  decide

/-- C3: the claim asserts that the queue always reads in non-decreasing
decoded sequence order and that a middle insertion lands immediately before
the first carrier with a larger decoded sequence.  The middle-insertion scan
compares the decoded sequence of the new packet against the raw network-order
`sequence` field of each queued carrier (no `ntohs`), so P(13) is inserted
before P(12) (stored field 0x0C00 = 3072 > 13) instead of before P(14),
leaving the queue in the non-sorted order 13,12,14. -/
theorem C3_middle_insert_misplaced :
    C3state.buffer.map seqHost = [13, 12, 14] ∧
    ¬ List.Sorted (· ≤ ·) (C3state.buffer.map seqHost) := by
  decide

/-- C4 counterexample: with P(100), P(101), P(102) pushed at t = 0, 1, 2 ms
into a 60 ms buffer, the pop at t = 5 ms does not return BUFFERING as the
claim states: three 20 ms packets give depth_ms = 60 ≥ nominal 60, so `pop`
leaves the buffering state at once and delivers P(100). -/
theorem C4_pop_at_5_succeeds :
    C4r1.2.1 = RESULT.SUCCESS ∧
    C4r1.2.1 ≠ RESULT.BUFFERING ∧
    (C4r1.2.2.map seqHost) = some 100 := by
  decide

/-- C4 (amended): after pushing P(100), P(101), P(102) at t = 0, 1, 2 ms, the
pop at t = 5 ms already returns SUCCESS with P(100) (depth 60 ms has reached
the nominal depth, ending warmup early); the next two pops return SUCCESS with
P(101) and P(102); and the following pop returns BUFFERING because the queue
is empty. -/
theorem C4_burst_warmup_trace :
    C4r1.2.1 = RESULT.SUCCESS ∧ (C4r1.2.2.map seqHost) = some 100 ∧
    C4r2.2.1 = RESULT.SUCCESS ∧ (C4r2.2.2.map seqHost) = some 101 ∧
    C4r3.2.1 = RESULT.SUCCESS ∧ (C4r3.2.2.map seqHost) = some 102 ∧
    C4r3.1.buffer = [] ∧
    C4r4.2.1 = RESULT.BUFFERING := by
  decide

/-- C5 counterexample: the push stream P(20), P(22) skips exactly sequence 21
and both neighbours are pushed, but P(22) only arrives after the pop of P(20)
has emptied the queue.  The push into the empty queue resets last_pop_seq to
22, so the pop immediately following the SUCCESS pop of P(20) delivers P(22)
with SUCCESS: no pop at all returns DROPPED_PACKET between them, not exactly
one as the claim states. -/
theorem C5_gap_across_empty_no_drop :
    C5xr1.2.1 = RESULT.SUCCESS ∧ (C5xr1.2.2.map seqHost) = some 20 ∧
    C5xr2.2.1 = RESULT.SUCCESS ∧ (C5xr2.2.2.map seqHost) = some 22 := by
  decide

/-- C6 counterexample: with nominal depth 2 ms (max 4 ms), pushing four 1 ms
packets, one 10 ms packet and one final 1 ms packet (payloads are not all
equal) leaves depth_ms = 14, which exceeds max_buffer_depth_ms plus the
payload_ms of the most recent push (4 + 1 = 5): a single head eviction per
push cannot re-establish the claimed bound when payloads differ. -/
theorem C6_mixed_payload_overflow :
    C6xstate.max_buffer_depth = 4 ∧
    C6xstate.depth_ms = 14 ∧
    C6xstate.overflow_count = 1 ∧
    ¬ C6xstate.depth_ms ≤ C6xstate.max_buffer_depth + 1 := by
  decide

/-- C8: pushing P(0xFFFE), P(0xFFFF), P(0x0000), P(0x0001) into a fresh 60 ms
buffer leaves the queue in push order (the explicit wraparound clause accepts
0 after 0xFFFF), and the four pops after warmup return SUCCESS with the same
four sequence numbers in order — the wraparound delivery clause accepts head 0
after last pop 0xFFFF — with no pop returning DROPPED_PACKET. -/
theorem C8_wraparound_trace :
    C8state.buffer.map seqHost = [0xFFFE, 0xFFFF, 0x0000, 0x0001] ∧
    C8r1.2.1 = RESULT.SUCCESS ∧ (C8r1.2.2.map seqHost) = some 0xFFFE ∧
    C8r2.2.1 = RESULT.SUCCESS ∧ (C8r2.2.2.map seqHost) = some 0xFFFF ∧
    C8r3.2.1 = RESULT.SUCCESS ∧ (C8r3.2.2.map seqHost) = some 0x0000 ∧
    C8r4.2.1 = RESULT.SUCCESS ∧ (C8r4.2.2.map seqHost) = some 0x0001 := by
  decide

/-- C9 counterexample: a reachable trace in which `push` inserts a carrier
into an empty queue without setting last_pop_seq to its sequence number.  The
overflow eviction inside the final push empties the queue (depth_ms had
underflowed after earlier front insertions were popped), and P(15) is then
front-inserted: first_buf_seq becomes 15 but last_pop_seq stays 14. -/
theorem C9_front_insert_empty_queue :
    C9xfinal.2 = RESULT.BUFFER_OVERFLOW ∧
    C9xfinal.1.buffer = [mkpkt 15 20 0] ∧
    seqHost (mkpkt 15 20 0) = 15 ∧
    C9xfinal.1.first_buf_sequence = 15 ∧
    C9xfinal.1.last_pop_sequence = 14 := by
  decide

/-- C10: there is a reachable state and a non-null, decodable packet for which
`push` returns SUCCESS without inserting the packet and without changing
depth_ms.  After pushes of P(254), P(256), P(768) and a pop of P(254), pushing
P(300) is classified out of order, is not too old and does not immediately
precede the head; the linear scan compares 300 against the stored
network-order sequence fields 1 (of P(256)) and 3 (of P(768)), finds no larger
one, and completes without inserting, while push still returns SUCCESS and
depth_ms stays 40. -/
theorem C10_silent_drop_success :
    C10final.2 = RESULT.SUCCESS ∧
    C10final.1.buffer.map seqHost = [256, 768] ∧
    C10final.1.depth_ms = 40 ∧
    C10final.1.ooo_count = 1 ∧
    ¬ (300 : Nat) ∈ C10final.1.buffer.map seqHost := by
  decide

theorem ntohs16_ntohs16 (v : Nat) (h : v < 65536) : ntohs16 (ntohs16 v) = v := by
  simp only [ntohs16]
  omega

theorem u32sub_of_le (a b : Nat) (hb : b ≤ a) (ha : a < 4294967296) :
    u32sub a b = a - b := by
  simp only [u32sub]
  omega

theorem u32add_of_lt (a b : Nat) (h : a + b < 4294967296) :
    u32add a b = a + b := by
  simp only [u32add]
  omega

theorem use_red_false_eta (p : RTPPacket) (h : p.use_redundant_payload = false) :
    { p with use_redundant_payload := false } = p := by
  cases p
  simp_all

/-- the buffering gate is the identity in the playout state when packets are
queued. -/
theorem popGate_playout (nom mx sr dep fb lb lp oc ec ovc now : Nat)
    (ts : Option Nat) (bp : RTPPacket) (rest : List RTPPacket) :
    popGate { buffer := bp :: rest, nominal_depth_ms := nom, max_buffer_depth := mx,
              payload_sample_rate := sr, depth_ms := dep, first_buf_sequence := fb,
              last_buf_sequence := lb, last_pop_sequence := lp, buffering := false,
              buffering_timestamp := ts, ooo_count := oc, empty_count := ec,
              overflow_count := ovc } now =
      { buffer := bp :: rest, nominal_depth_ms := nom, max_buffer_depth := mx,
        payload_sample_rate := sr, depth_ms := dep, first_buf_sequence := fb,
        last_buf_sequence := lb, last_pop_sequence := lp, buffering := false,
        buffering_timestamp := ts, ooo_count := oc, empty_count := ec,
        overflow_count := ovc } := by
  simp [popGate]

/-- the buffering gate leaves the buffering state when the queue is nonempty
and either the buffering timer has expired or the queued depth has reached the
nominal depth. -/
theorem popGate_exit (nom mx sr dep fb lb lp oc ec ovc now t0 : Nat)
    (bp : RTPPacket) (rest : List RTPPacket)
    (hc : nom ≤ now - t0 ∨ nom ≤ dep) :
    popGate { buffer := bp :: rest, nominal_depth_ms := nom, max_buffer_depth := mx,
              payload_sample_rate := sr, depth_ms := dep, first_buf_sequence := fb,
              last_buf_sequence := lb, last_pop_sequence := lp, buffering := true,
              buffering_timestamp := some t0, ooo_count := oc, empty_count := ec,
              overflow_count := ovc } now =
      { buffer := bp :: rest, nominal_depth_ms := nom, max_buffer_depth := mx,
        payload_sample_rate := sr, depth_ms := dep, first_buf_sequence := fb,
        last_buf_sequence := lb, last_pop_sequence := lp, buffering := false,
        buffering_timestamp := none, ooo_count := oc, empty_count := ec,
        overflow_count := ovc } := by
  have hcc : (decide (nom ≤ now - t0) = true ∨ nom ≤ dep) := by
    rcases hc with hc | hc
    · exact Or.inl (by simpa using hc)
    · exact Or.inr hc
  simp only [popGate]
  rw [if_pos hcc]
  simp

/-- delivery section on a nonempty queue in the playout state,
redundancy-recovery case: the head has the DYNAMIC payload type and exactly
one sequence number lies between the last pop and the head. -/
theorem popDeliver_redundant (nom mx sr dep fb lb lp oc ec ovc : Nat)
    (ts : Option Nat) (bp : RTPPacket) (rest : List RTPPacket)
    (hpt : bp.payload_type = RTP_PAYLOAD_DYNAMIC)
    (hseq : lp + 2 = fb) :
    popDeliver { buffer := bp :: rest, nominal_depth_ms := nom, max_buffer_depth := mx,
                 payload_sample_rate := sr, depth_ms := dep, first_buf_sequence := fb,
                 last_buf_sequence := lb, last_pop_sequence := lp, buffering := false,
                 buffering_timestamp := ts, ooo_count := oc, empty_count := ec,
                 overflow_count := ovc } =
      ({ buffer := { bp with use_redundant_payload := true } :: rest,
         nominal_depth_ms := nom, max_buffer_depth := mx,
         payload_sample_rate := sr, depth_ms := dep,
         first_buf_sequence := ntohs16 bp.seqRaw,
         last_buf_sequence := lb, last_pop_sequence := ntohs16 bp.seqRaw,
         buffering := false, buffering_timestamp := ts, ooo_count := oc,
         empty_count := ec, overflow_count := ovc },
       RESULT.SUCCESS, some { bp with use_redundant_payload := true }) := by
  simp only [popDeliver, hpt, hseq]
  simp

/-- delivery section on a queue holding at least two carriers, normal
delivery: one of the first three "good sequence" clauses holds and the
redundancy case does not; the new head supplies first_buf_sequence. -/
theorem popDeliver_normal_cons (nom mx sr dep fb lb lp oc ec ovc : Nat)
    (ts : Option Nat) (bp b2 : RTPPacket) (rest : List RTPPacket)
    (hcond : lp = fb ∨ lp + 1 = fb ∨ (lp = 65535 ∧ fb = 0)) :
    popDeliver { buffer := bp :: b2 :: rest, nominal_depth_ms := nom,
                 max_buffer_depth := mx, payload_sample_rate := sr, depth_ms := dep,
                 first_buf_sequence := fb, last_buf_sequence := lb,
                 last_pop_sequence := lp, buffering := false,
                 buffering_timestamp := ts, ooo_count := oc, empty_count := ec,
                 overflow_count := ovc } =
      ({ buffer := b2 :: rest, nominal_depth_ms := nom, max_buffer_depth := mx,
         payload_sample_rate := sr, depth_ms := u32sub dep bp.payload_ms,
         first_buf_sequence := ntohs16 b2.seqRaw, last_buf_sequence := lb,
         last_pop_sequence := ntohs16 bp.seqRaw, buffering := false,
         buffering_timestamp := ts, ooo_count := oc, empty_count := ec,
         overflow_count := ovc },
       RESULT.SUCCESS, some { bp with use_redundant_payload := false }) := by
  rcases hcond with h | h | ⟨h65, h0⟩
  · subst h
    have hne : ¬ (lp + 2 = lp) := by omega
    simp [popDeliver, hne]
  · subst h
    have hne : ¬ (lp + 2 = lp + 1) := by omega
    simp [popDeliver, hne]
  · subst h65
    subst h0
    simp [popDeliver]

/-- delivery section on a queue holding exactly one carrier, normal delivery:
the queue empties and first_buf_sequence is reset to the delivered sequence. -/
theorem popDeliver_normal_last (nom mx sr dep fb lb lp oc ec ovc : Nat)
    (ts : Option Nat) (bp : RTPPacket)
    (hcond : lp = fb ∨ lp + 1 = fb ∨ (lp = 65535 ∧ fb = 0)) :
    popDeliver { buffer := [bp], nominal_depth_ms := nom,
                 max_buffer_depth := mx, payload_sample_rate := sr, depth_ms := dep,
                 first_buf_sequence := fb, last_buf_sequence := lb,
                 last_pop_sequence := lp, buffering := false,
                 buffering_timestamp := ts, ooo_count := oc, empty_count := ec,
                 overflow_count := ovc } =
      ({ buffer := [], nominal_depth_ms := nom, max_buffer_depth := mx,
         payload_sample_rate := sr, depth_ms := u32sub dep bp.payload_ms,
         first_buf_sequence := ntohs16 bp.seqRaw, last_buf_sequence := lb,
         last_pop_sequence := ntohs16 bp.seqRaw, buffering := false,
         buffering_timestamp := ts, ooo_count := oc, empty_count := ec,
         overflow_count := ovc },
       RESULT.SUCCESS, some { bp with use_redundant_payload := false }) := by
  rcases hcond with h | h | ⟨h65, h0⟩
  · subst h
    have hne : ¬ (lp + 2 = lp) := by omega
    simp [popDeliver, hne]
  · subst h
    have hne : ¬ (lp + 2 = lp + 1) := by omega
    simp [popDeliver, hne]
  · subst h65
    subst h0
    simp [popDeliver]

/-- delivery section on a nonempty queue in the playout state, loss-detection
case: none of the four delivery clauses holds, so DROPPED_PACKET is reported
and the queue is untouched. -/
theorem popDeliver_dropped (nom mx sr dep fb lb lp oc ec ovc : Nat)
    (ts : Option Nat) (bp : RTPPacket) (rest : List RTPPacket)
    (hcond : ¬ (lp = fb ∨ lp + 1 = fb ∨ (lp = 65535 ∧ fb = 0)
                ∨ (bp.payload_type = RTP_PAYLOAD_DYNAMIC ∧ lp + 2 = fb))) :
    popDeliver { buffer := bp :: rest, nominal_depth_ms := nom,
                 max_buffer_depth := mx, payload_sample_rate := sr, depth_ms := dep,
                 first_buf_sequence := fb, last_buf_sequence := lb,
                 last_pop_sequence := lp, buffering := false,
                 buffering_timestamp := ts, ooo_count := oc, empty_count := ec,
                 overflow_count := ovc } =
      ({ buffer := bp :: rest, nominal_depth_ms := nom, max_buffer_depth := mx,
         payload_sample_rate := sr, depth_ms := dep, first_buf_sequence := fb,
         last_buf_sequence := lb, last_pop_sequence := (lp + 1) % 65536,
         buffering := false, buffering_timestamp := ts, ooo_count := oc,
         empty_count := ec, overflow_count := ovc },
       RESULT.DROPPED_PACKET, none) := by
  push_neg at hcond
  obtain ⟨h1, h2, h3, h4⟩ := hcond
  simp [popDeliver, h1, h2]
  intro hcd
  rcases hcd with ⟨hl, hf⟩ | ⟨hp, hf⟩
  · exact absurd hf (h3 hl)
  · exact absurd hf (h4 hp)

theorem C5s2_eq (a b : Nat) (ha : a < 65536) (hb : b < 65536) :
    C5s2 a b =
      { buffer := [mkpkt a 20 0, mkpkt b 20 0], nominal_depth_ms := 60,
        max_buffer_depth := 120, payload_sample_rate := 8000, depth_ms := 40,
        first_buf_sequence := a, last_buf_sequence := b, last_pop_sequence := a,
        buffering := true, buffering_timestamp := some 0,
        ooo_count := 0, empty_count := 0, overflow_count := 0 } := by
  have h1 := ntohs16_ntohs16 a ha
  have h2 := ntohs16_ntohs16 b hb
  simp [C5s2, pushAll, push, initState, set_depth, mkpkt, h1, h2, u32add]

theorem C5r1_eq (a b : Nat) (ha : a < 65536) (hb : b < 65536) :
    C5r1 a b =
      ({ buffer := [mkpkt b 20 0], nominal_depth_ms := 60,
         max_buffer_depth := 120, payload_sample_rate := 8000, depth_ms := 20,
         first_buf_sequence := b, last_buf_sequence := b, last_pop_sequence := a,
         buffering := false, buffering_timestamp := none,
         ooo_count := 0, empty_count := 0, overflow_count := 0 },
       RESULT.SUCCESS, some (mkpkt a 20 0)) := by
  have h1 := ntohs16_ntohs16 a ha
  have h2 := ntohs16_ntohs16 b hb
  rw [C5r1, C5s2_eq a b ha hb, pop,
      popGate_exit 60 120 8000 40 a b a 0 0 0 60 0 (mkpkt a 20 0) [mkpkt b 20 0]
        (Or.inl (by norm_num)),
      popDeliver_normal_cons 60 120 8000 40 a b a 0 0 0 none
        (mkpkt a 20 0) (mkpkt b 20 0) [] (Or.inl rfl)]
  have e1 : ntohs16 (mkpkt a 20 0).seqRaw = a := h1
  have e2 : ntohs16 (mkpkt b 20 0).seqRaw = b := h2
  have e3 : u32sub 40 (mkpkt a 20 0).payload_ms = 20 := by
    simp only [mkpkt]
    simp only [u32sub]
  rw [e1, e2, e3]
  exact rfl

theorem C5r2_eq (a : Nat) (ha : a + 2 ≤ 65535) :
    C5r2 a (a + 2) =
      ({ buffer := [mkpkt (a + 2) 20 0], nominal_depth_ms := 60,
         max_buffer_depth := 120, payload_sample_rate := 8000, depth_ms := 20,
         first_buf_sequence := a + 2, last_buf_sequence := a + 2,
         last_pop_sequence := a + 1,
         buffering := false, buffering_timestamp := none,
         ooo_count := 0, empty_count := 0, overflow_count := 0 },
       RESULT.DROPPED_PACKET, none) := by
  rw [C5r2, C5r1_eq a (a + 2) (by omega) (by omega), pop,
      popGate_playout 60 120 8000 20 (a + 2) (a + 2) a 0 0 0 61 none
        (mkpkt (a + 2) 20 0) [],
      popDeliver_dropped 60 120 8000 20 (a + 2) (a + 2) a 0 0 0 none
        (mkpkt (a + 2) 20 0) []
        (by simp [mkpkt, RTP_PAYLOAD_DYNAMIC])]
  rw [Nat.mod_eq_of_lt (show a + 1 < 65536 by omega)]

theorem C5r3_eq (a : Nat) (ha : a + 2 ≤ 65535) :
    C5r3 a (a + 2) =
      ({ buffer := [], nominal_depth_ms := 60,
         max_buffer_depth := 120, payload_sample_rate := 8000, depth_ms := 0,
         first_buf_sequence := a + 2, last_buf_sequence := a + 2,
         last_pop_sequence := a + 2,
         buffering := false, buffering_timestamp := none,
         ooo_count := 0, empty_count := 0, overflow_count := 0 },
       RESULT.SUCCESS, some (mkpkt (a + 2) 20 0)) := by
  have h2 := ntohs16_ntohs16 (a + 2) (by omega : a + 2 < 65536)
  rw [C5r3, C5r2_eq a ha, pop,
      popGate_playout 60 120 8000 20 (a + 2) (a + 2) (a + 1) 0 0 0 62 none
        (mkpkt (a + 2) 20 0) [],
      popDeliver_normal_last 60 120 8000 20 (a + 2) (a + 2) (a + 1) 0 0 0 none
        (mkpkt (a + 2) 20 0) (Or.inr (Or.inl rfl))]
  have e1 : ntohs16 (mkpkt (a + 2) 20 0).seqRaw = a + 2 := h2
  have e3 : u32sub 20 (mkpkt (a + 2) 20 0).payload_ms = 0 := by
    simp only [mkpkt]
    simp only [u32sub]
  rw [e1, e3]
  exact rfl

/-- C5 (amended): if the push stream skips exactly one sequence number k while
the packets k−1 and k+1 are both pushed, and k+1 arrives while k−1 is still
queued (the queue does not become empty between the two pushes — here both are
pushed before the first pop), then exactly one pop returns DROPPED_PACKET
between the SUCCESS pop of k−1 and the SUCCESS pop of k+1; the DROPPED_PACKET
pop delivers no carrier, leaves the queue unchanged, and advances
last_pop_seq by one (modulo 2^16).  Stated for every 16-bit k, wrap boundary
included. -/
theorem C5_single_gap_reported (k : Nat) (hk : k < 65536) :
    (C5r1 ((k + 65535) % 65536) ((k + 1) % 65536)).2.1 = RESULT.SUCCESS ∧
    (C5r1 ((k + 65535) % 65536) ((k + 1) % 65536)).2.2
      = some (mkpkt ((k + 65535) % 65536) 20 0) ∧
    (C5r2 ((k + 65535) % 65536) ((k + 1) % 65536)).2.1 = RESULT.DROPPED_PACKET ∧
    (C5r2 ((k + 65535) % 65536) ((k + 1) % 65536)).2.2 = (none : Option RTPPacket) ∧
    (C5r2 ((k + 65535) % 65536) ((k + 1) % 65536)).1.buffer
      = (C5r1 ((k + 65535) % 65536) ((k + 1) % 65536)).1.buffer ∧
    (C5r2 ((k + 65535) % 65536) ((k + 1) % 65536)).1.last_pop_sequence
      = ((C5r1 ((k + 65535) % 65536) ((k + 1) % 65536)).1.last_pop_sequence + 1) % 65536 ∧
    (C5r3 ((k + 65535) % 65536) ((k + 1) % 65536)).2.1 = RESULT.SUCCESS ∧
    (C5r3 ((k + 65535) % 65536) ((k + 1) % 65536)).2.2
      = some (mkpkt ((k + 1) % 65536) 20 0) := by
  by_cases h0 : k = 0
  · subst h0
    decide
  by_cases h65 : k = 65535
  · subst h65
    decide
  have ha : (k + 65535) % 65536 = k - 1 := by omega
  have hb : (k + 1) % 65536 = (k - 1) + 2 := by omega
  rw [ha, hb]
  have h2 : (k - 1) + 2 ≤ 65535 := by omega
  rw [C5r1_eq (k - 1) ((k - 1) + 2) (by omega) (by omega), C5r2_eq (k - 1) h2,
      C5r3_eq (k - 1) h2]
  refine ⟨rfl, rfl, rfl, rfl, rfl, ?_, rfl, rfl⟩
  rw [Nat.mod_eq_of_lt (show (k - 1) + 1 < 65536 by omega)]

/-- witness for C5_single_gap_reported: the skipped sequence number is 21, the
spec's gap scenario (push P(20), P(22)). -/
theorem C5_single_gap_reported_witness :
    21 < 65536 ∧
    ((C5r1 ((21 + 65535) % 65536) ((21 + 1) % 65536)).2.1 = RESULT.SUCCESS ∧
     (C5r1 ((21 + 65535) % 65536) ((21 + 1) % 65536)).2.2
       = some (mkpkt ((21 + 65535) % 65536) 20 0) ∧
     (C5r2 ((21 + 65535) % 65536) ((21 + 1) % 65536)).2.1 = RESULT.DROPPED_PACKET ∧
     (C5r2 ((21 + 65535) % 65536) ((21 + 1) % 65536)).2.2 = (none : Option RTPPacket) ∧
     (C5r2 ((21 + 65535) % 65536) ((21 + 1) % 65536)).1.buffer
       = (C5r1 ((21 + 65535) % 65536) ((21 + 1) % 65536)).1.buffer ∧
     (C5r2 ((21 + 65535) % 65536) ((21 + 1) % 65536)).1.last_pop_sequence
       = ((C5r1 ((21 + 65535) % 65536) ((21 + 1) % 65536)).1.last_pop_sequence + 1) % 65536 ∧
     (C5r3 ((21 + 65535) % 65536) ((21 + 1) % 65536)).2.1 = RESULT.SUCCESS ∧
     (C5r3 ((21 + 65535) % 65536) ((21 + 1) % 65536)).2.2
       = some (mkpkt ((21 + 1) % 65536) 20 0)) :=
  ⟨by decide, C5_single_gap_reported 21 (by decide)⟩

/-- push of a decodable packet while the consumer has caught up
(`last_pop == first_buf`, so the append clause holds) and no overflow is
pending: the packet is appended. -/
theorem push_caughtup_noevict (nom mx sr dep fb lb lp oc ec ovc t : Nat)
    (bg : Bool) (ts : Option Nat) (buf : List RTPPacket) (p : RTPPacket)
    (hd : p.hasData = true) (heq : lp = fb) (hnoov : dep ≤ mx) :
    push { buffer := buf, nominal_depth_ms := nom, max_buffer_depth := mx,
           payload_sample_rate := sr, depth_ms := dep, first_buf_sequence := fb,
           last_buf_sequence := lb, last_pop_sequence := lp, buffering := bg,
           buffering_timestamp := ts, ooo_count := oc, empty_count := ec,
           overflow_count := ovc } t (some p) =
      ((if (buf ++ [p]).length = 1 then
          { buffer := buf ++ [p], nominal_depth_ms := nom, max_buffer_depth := mx,
            payload_sample_rate := sr, depth_ms := u32add dep p.payload_ms,
            first_buf_sequence := ntohs16 p.seqRaw,
            last_buf_sequence := ntohs16 p.seqRaw,
            last_pop_sequence := ntohs16 p.seqRaw, buffering := bg,
            buffering_timestamp := if bg = true ∧ ts = none then some t else ts,
            ooo_count := oc, empty_count := ec, overflow_count := ovc }
        else
          { buffer := buf ++ [p], nominal_depth_ms := nom, max_buffer_depth := mx,
            payload_sample_rate := sr, depth_ms := u32add dep p.payload_ms,
            first_buf_sequence := fb, last_buf_sequence := ntohs16 p.seqRaw,
            last_pop_sequence := lp, buffering := bg,
            buffering_timestamp := if bg = true ∧ ts = none then some t else ts,
            ooo_count := oc, empty_count := ec, overflow_count := ovc }),
       RESULT.SUCCESS) := by
  subst heq
  by_cases hbt : bg = true ∧ ts = none <;>
    by_cases hl : (buf ++ [p]).length = 1 <;>
      simp [push, hd, Nat.not_lt.mpr hnoov, hbt, hl]

/-- push of a decodable packet while the consumer has caught up and the buffer
has overflowed: the head carrier is evicted, then the packet is appended. -/
theorem push_caughtup_evict (nom mx sr dep fb lb lp oc ec ovc t : Nat)
    (bg : Bool) (ts : Option Nat) (bp : RTPPacket) (tl : List RTPPacket)
    (p : RTPPacket)
    (hd : p.hasData = true) (heq : lp = fb) (hov : mx < dep) :
    push { buffer := bp :: tl, nominal_depth_ms := nom, max_buffer_depth := mx,
           payload_sample_rate := sr, depth_ms := dep, first_buf_sequence := fb,
           last_buf_sequence := lb, last_pop_sequence := lp, buffering := bg,
           buffering_timestamp := ts, ooo_count := oc, empty_count := ec,
           overflow_count := ovc } t (some p) =
      ((if (tl ++ [p]).length = 1 then
          { buffer := tl ++ [p], nominal_depth_ms := nom, max_buffer_depth := mx,
            payload_sample_rate := sr,
            depth_ms := u32add (u32sub dep bp.payload_ms) p.payload_ms,
            first_buf_sequence := ntohs16 p.seqRaw,
            last_buf_sequence := ntohs16 p.seqRaw,
            last_pop_sequence := ntohs16 p.seqRaw, buffering := bg,
            buffering_timestamp := if bg = true ∧ ts = none then some t else ts,
            ooo_count := oc, empty_count := ec,
            overflow_count := u32inc ovc }
        else
          { buffer := tl ++ [p], nominal_depth_ms := nom, max_buffer_depth := mx,
            payload_sample_rate := sr,
            depth_ms := u32add (u32sub dep bp.payload_ms) p.payload_ms,
            first_buf_sequence := fb, last_buf_sequence := ntohs16 p.seqRaw,
            last_pop_sequence := lp, buffering := bg,
            buffering_timestamp := if bg = true ∧ ts = none then some t else ts,
            ooo_count := oc, empty_count := ec,
            overflow_count := u32inc ovc }),
       RESULT.BUFFER_OVERFLOW) := by
  subst heq
  by_cases hbt : bg = true ∧ ts = none <;>
    by_cases hl : (tl ++ [p]).length = 1 <;>
      simp [push, hd, hov, hbt, hl]

/-- a push of a uniform-payload packet preserves the never-popped invariant of
claim C6. -/
theorem C6step (m q : Nat) (hm : m ≤ 2097152) (hq : q ≤ 1048576)
    (st : JState) (t : Nat) (p : RTPPacket) (hp : p.payload_ms = q)
    (hinv : C6inv m q st) :
    C6inv m q (push st t (some p)).1 := by
  obtain ⟨buf, nom, mx, sr, dep, fb, lb, lp, bg, ts, oc, ec, ovc⟩ := st
  simp only [C6inv] at hinv
  obtain ⟨hmax, heq, hall, hdep, hbound⟩ := hinv
  by_cases hdt : p.hasData = true
  · by_cases hov : mx < dep
    · -- overflow eviction: the buffer cannot be empty
      cases buf with
      | nil =>
        exfalso
        simp at hdep
        omega
      | cons bp tl =>
        have hbp : bp.payload_ms = q := hall bp (List.mem_cons_self _ _)
        have hsum : dep = q + (tl.map RTPPacket.payload_ms).sum := by
          simpa [hbp] using hdep
        have hd32 : dep < 4294967296 := by omega
        have hsub : u32sub dep bp.payload_ms = (tl.map RTPPacket.payload_ms).sum := by
          rw [hbp, u32sub_of_le _ _ (by omega) hd32]
          omega
        have hadd : u32add ((tl.map RTPPacket.payload_ms).sum) p.payload_ms
            = (tl.map RTPPacket.payload_ms).sum + q := by
          rw [hp]
          exact u32add_of_lt _ _ (by omega)
        rw [push_caughtup_evict nom mx sr dep fb lb lp oc ec ovc t bg ts bp tl p
              hdt heq hov]
        by_cases hl : (tl ++ [p]).length = 1 <;>
          · simp only [hl, if_true, if_false, C6inv]
            refine ⟨hmax, by simp [heq], ?_, ?_, ?_⟩
            · intro x hx
              rcases List.mem_append.mp hx with hx | hx
              · exact hall x (List.mem_cons_of_mem _ hx)
              · simp at hx
                subst hx
                exact hp
            · rw [hsub, hadd]
              simp [hp]
            · rw [hsub, hadd]
              omega
    · -- no eviction
      have hnoov : dep ≤ mx := Nat.not_lt.mp hov
      have hadd : u32add dep p.payload_ms = dep + q := by
        rw [hp]
        exact u32add_of_lt _ _ (by omega)
      rw [push_caughtup_noevict nom mx sr dep fb lb lp oc ec ovc t bg ts buf p
            hdt heq hnoov]
      by_cases hl : (buf ++ [p]).length = 1 <;>
        · simp only [hl, if_true, if_false, C6inv]
          refine ⟨hmax, by simp [heq], ?_, ?_, ?_⟩
          · intro x hx
            rcases List.mem_append.mp hx with hx | hx
            · exact hall x hx
            · simp at hx
              subst hx
              exact hp
          · rw [hadd, hdep]
            simp [hp]
          · rw [hadd]
            omega
  · -- null pData: BAD_PACKET, state unchanged
    have hdf : p.hasData = false := by
      revert hdt
      cases p.hasData <;> simp
    simp only [push, hdf, if_true, C6inv]
    exact ⟨hmax, heq, hall, hdep, hbound⟩

/-- the C6 invariant holds after any sequence of uniform-payload pushes. -/
theorem C6all (m q : Nat) (hm : m ≤ 2097152) (hq : q ≤ 1048576)
    (ps : List (Nat × RTPPacket)) (st : JState)
    (hinv : C6inv m q st) (hps : ∀ pr ∈ ps, (pr.2).payload_ms = q) :
    C6inv m q (pushAll st ps) := by
  induction ps generalizing st with
  | nil => simpa [pushAll] using hinv
  | cons pr tl ih =>
    simp only [pushAll, List.foldl_cons]
    exact ih (push st pr.1 (some pr.2)).1
      (C6step m q hm hq st pr.1 pr.2 (hps pr (List.mem_cons_self _ _)) hinv)
      (fun x hx => hps x (List.mem_cons_of_mem _ hx))

/-- C6 (amended): after any sequence of pushes with no intervening pops in
which every pushed packet carries the same payload_ms q, depth_ms is at most
max_buffer_depth_ms plus q (at most one head carrier is evicted per push, and
only when depth_ms strictly exceeds max_buffer_depth_ms).  With unequal
payloads the bound fails (see the counterexample). -/
theorem C6_uniform_payload_bound (d q : Nat) (ps : List (Nat × RTPPacket))
    (hd : d ≤ 1048576) (hq : q ≤ 1048576)
    (hps : ∀ pr ∈ ps, (pr.2).payload_ms = q) :
    (pushAll (initState d 8000) ps).depth_ms
      ≤ (pushAll (initState d 8000) ps).max_buffer_depth + q := by
  have hinv0 : C6inv (if d ≤ 0 then 0 else d * 2) q (initState d 8000) := by
    simp [C6inv, initState, set_depth]
  have h := C6all (if d ≤ 0 then 0 else d * 2) q (by split <;> omega) hq ps
    (initState d 8000) hinv0 hps
  obtain ⟨hmax, h2, h3, h4, hbound⟩ := h
  rw [hmax]
  exact hbound

/-- witness for C6_uniform_payload_bound: two 20 ms packets into a 60 ms
buffer. -/
theorem C6_uniform_payload_bound_witness :
    60 ≤ 1048576 ∧ 20 ≤ 1048576 ∧
    (∀ pr ∈ [((0 : Nat), mkpkt 1 20 0), ((0 : Nat), mkpkt 2 20 0)],
      (pr.2).payload_ms = 20) ∧
    (pushAll (initState 60 8000) [((0 : Nat), mkpkt 1 20 0), ((0 : Nat), mkpkt 2 20 0)]).depth_ms
      ≤ (pushAll (initState 60 8000) [((0 : Nat), mkpkt 1 20 0), ((0 : Nat), mkpkt 2 20 0)]).max_buffer_depth + 20 :=
  ⟨by decide, by decide, by decide,
   C6_uniform_payload_bound 60 20 [((0 : Nat), mkpkt 1 20 0), ((0 : Nat), mkpkt 2 20 0)]
     (by decide) (by decide) (by decide)⟩

/-- C7: when the head carrier's payload type is DYNAMIC (0x79) and
last_pop_seq equals first_buf_seq − 2, pop returns SUCCESS yielding the head
with use_redundant_payload set to true while keeping it in the queue and
leaving depth_ms unchanged; the subsequent pop removes that same carrier
normally with use_redundant_payload set to false and subtracts its payload_ms
from depth_ms.  (Stated for any playout-state buffer whose depth accounting
covers the head payload.) -/
theorem C7_redundant_payload_two_pops (st : JState) (hd0 : RTPPacket)
    (rest : List RTPPacket) (t1 t2 : Nat)
    (hbuf : st.buffer = hd0 :: rest)
    (hpt : hd0.payload_type = RTP_PAYLOAD_DYNAMIC)
    (hseq : st.last_pop_sequence + 2 = st.first_buf_sequence)
    (hbg : st.buffering = false)
    (hdl : hd0.payload_ms ≤ st.depth_ms)
    (hd32 : st.depth_ms < 4294967296) :
    (pop st t1).2.1 = RESULT.SUCCESS ∧
    (pop st t1).2.2 = some { hd0 with use_redundant_payload := true } ∧
    (pop st t1).1.buffer = { hd0 with use_redundant_payload := true } :: rest ∧
    (pop st t1).1.depth_ms = st.depth_ms ∧
    (pop (pop st t1).1 t2).2.1 = RESULT.SUCCESS ∧
    (pop (pop st t1).1 t2).2.2 = some { hd0 with use_redundant_payload := false } ∧
    (pop (pop st t1).1 t2).1.buffer = rest ∧
    (pop (pop st t1).1 t2).1.depth_ms = st.depth_ms - hd0.payload_ms := by
  obtain ⟨buf, nom, mx, sr, dep, fb, lb, lp, bg, ts, oc, ec, ovc⟩ := st
  simp only at hbuf hseq hbg hdl hd32 ⊢
  subst hbuf
  subst hbg
  have e1 : pop { buffer := hd0 :: rest, nominal_depth_ms := nom,
                  max_buffer_depth := mx, payload_sample_rate := sr,
                  depth_ms := dep, first_buf_sequence := fb,
                  last_buf_sequence := lb, last_pop_sequence := lp,
                  buffering := false, buffering_timestamp := ts,
                  ooo_count := oc, empty_count := ec,
                  overflow_count := ovc } t1 =
      ({ buffer := { hd0 with use_redundant_payload := true } :: rest,
         nominal_depth_ms := nom, max_buffer_depth := mx,
         payload_sample_rate := sr, depth_ms := dep,
         first_buf_sequence := ntohs16 hd0.seqRaw, last_buf_sequence := lb,
         last_pop_sequence := ntohs16 hd0.seqRaw, buffering := false,
         buffering_timestamp := ts, ooo_count := oc, empty_count := ec,
         overflow_count := ovc },
       RESULT.SUCCESS, some { hd0 with use_redundant_payload := true }) := by
    rw [pop, popGate_playout nom mx sr dep fb lb lp oc ec ovc t1 ts hd0 rest,
        popDeliver_redundant nom mx sr dep fb lb lp oc ec ovc ts hd0 rest hpt hseq]
  rw [e1]
  have hpm : ({ hd0 with use_redundant_payload := true } : RTPPacket).payload_ms
      = hd0.payload_ms := rfl
  cases rest with
  | nil =>
    have e2 := popDeliver_normal_last nom mx sr dep (ntohs16 hd0.seqRaw) lb
      (ntohs16 hd0.seqRaw) oc ec ovc ts { hd0 with use_redundant_payload := true }
      (Or.inl rfl)
    rw [pop, popGate_playout nom mx sr dep (ntohs16 hd0.seqRaw) lb
          (ntohs16 hd0.seqRaw) oc ec ovc t2 ts
          { hd0 with use_redundant_payload := true } [], e2]
    refine ⟨rfl, rfl, rfl, rfl, rfl, rfl, rfl, ?_⟩
    rw [hpm, u32sub_of_le _ _ hdl hd32]
  | cons b2 tl =>
    have e2 := popDeliver_normal_cons nom mx sr dep (ntohs16 hd0.seqRaw) lb
      (ntohs16 hd0.seqRaw) oc ec ovc ts { hd0 with use_redundant_payload := true }
      b2 tl (Or.inl rfl)
    rw [pop, popGate_playout nom mx sr dep (ntohs16 hd0.seqRaw) lb
          (ntohs16 hd0.seqRaw) oc ec ovc t2 ts
          { hd0 with use_redundant_payload := true } (b2 :: tl), e2]
    refine ⟨rfl, rfl, rfl, rfl, rfl, rfl, rfl, ?_⟩
    rw [hpm, u32sub_of_le _ _ hdl hd32]

/-- witness for C7_redundant_payload_two_pops: P(32), 20 ms DYNAMIC payload,
queued alone after P(30) was delivered and sequence 31 was lost. -/
theorem C7_redundant_payload_two_pops_witness :
    (C7st.buffer = C7hd :: [] ∧
     C7hd.payload_type = RTP_PAYLOAD_DYNAMIC ∧
     C7st.last_pop_sequence + 2 = C7st.first_buf_sequence ∧
     C7st.buffering = false ∧
     C7hd.payload_ms ≤ C7st.depth_ms ∧
     C7st.depth_ms < 4294967296) ∧
    ((pop C7st 0).2.1 = RESULT.SUCCESS ∧
     (pop C7st 0).2.2 = some { C7hd with use_redundant_payload := true } ∧
     (pop C7st 0).1.buffer = { C7hd with use_redundant_payload := true } :: [] ∧
     (pop C7st 0).1.depth_ms = C7st.depth_ms ∧
     (pop (pop C7st 0).1 1).2.1 = RESULT.SUCCESS ∧
     (pop (pop C7st 0).1 1).2.2 = some { C7hd with use_redundant_payload := false } ∧
     (pop (pop C7st 0).1 1).1.buffer = [] ∧
     (pop (pop C7st 0).1 1).1.depth_ms = C7st.depth_ms - C7hd.payload_ms) :=
  ⟨⟨by decide, by decide, by decide, by decide, by decide, by decide⟩,
   C7_redundant_payload_two_pops C7st C7hd [] 0 1 (by decide) (by decide)
     (by decide) (by decide) (by decide) (by decide)⟩

/-- the buffering gate leaves the state untouched when buffering is on but
neither the timer nor the queued depth has reached the nominal depth. -/
theorem popGate_stay (nom mx sr dep fb lb lp oc ec ovc now t0 : Nat)
    (bp : RTPPacket) (rest : List RTPPacket)
    (hc1 : ¬ nom ≤ now - t0) (hc2 : ¬ nom ≤ dep) :
    popGate { buffer := bp :: rest, nominal_depth_ms := nom, max_buffer_depth := mx,
              payload_sample_rate := sr, depth_ms := dep, first_buf_sequence := fb,
              last_buf_sequence := lb, last_pop_sequence := lp, buffering := true,
              buffering_timestamp := some t0, ooo_count := oc, empty_count := ec,
              overflow_count := ovc } now =
      { buffer := bp :: rest, nominal_depth_ms := nom, max_buffer_depth := mx,
        payload_sample_rate := sr, depth_ms := dep, first_buf_sequence := fb,
        last_buf_sequence := lb, last_pop_sequence := lp, buffering := true,
        buffering_timestamp := some t0, ooo_count := oc, empty_count := ec,
        overflow_count := ovc } := by
  simp [popGate, hc1, hc2]

/-- the delivery section refuses when the gate left the buffering flag on. -/
theorem popDeliver_buffering (st1 : JState) (hbg : st1.buffering = true) :
    popDeliver st1 = (st1, RESULT.BUFFERING, none) := by
  simp [popDeliver, hbg]

/-- C9 (amended): whenever push appends a carrier to a queue that is empty at
the start of the call with the counters in the state every pop or init leaves
an empty queue in (last_pop_seq = first_buf_seq, depth accounted within
max_buffer_depth_ms), push succeeds and sets both first_buf_seq and
last_pop_seq to that carrier's decoded sequence number; consequently any pop
on the resulting state either still reports BUFFERING (leaving queue and both
sequence counters untouched) or delivers exactly that packet with SUCCESS —
no pop ever reports DROPPED_PACKET for the sequence numbers skipped while the
queue was empty. -/
theorem C9_append_empty_sets_counters (st : JState) (pkt : RTPPacket) (t t2 : Nat)
    (hempty : st.buffer = [])
    (heq : st.last_pop_sequence = st.first_buf_sequence)
    (hdep : st.depth_ms ≤ st.max_buffer_depth)
    (hdata : pkt.hasData = true)
    (hred : pkt.use_redundant_payload = false) :
    (push st t (some pkt)).2 = RESULT.SUCCESS ∧
    (push st t (some pkt)).1.buffer = [pkt] ∧
    (push st t (some pkt)).1.first_buf_sequence = ntohs16 pkt.seqRaw ∧
    (push st t (some pkt)).1.last_pop_sequence = ntohs16 pkt.seqRaw ∧
    (((pop (push st t (some pkt)).1 t2).2.1 = RESULT.BUFFERING ∧
      (pop (push st t (some pkt)).1 t2).1.buffer = [pkt] ∧
      (pop (push st t (some pkt)).1 t2).1.first_buf_sequence = ntohs16 pkt.seqRaw ∧
      (pop (push st t (some pkt)).1 t2).1.last_pop_sequence = ntohs16 pkt.seqRaw) ∨
     ((pop (push st t (some pkt)).1 t2).2.1 = RESULT.SUCCESS ∧
      (pop (push st t (some pkt)).1 t2).2.2 = some pkt)) := by
  obtain ⟨buf, nom, mx, sr, dep, fb, lb, lp, bg, ts, oc, ec, ovc⟩ := st
  simp only at hempty heq hdep ⊢
  subst hempty
  have hlen : (([] : List RTPPacket) ++ [pkt]).length = 1 := rfl
  have hpkt : ({ pkt with use_redundant_payload := false } : RTPPacket) = pkt :=
    use_red_false_eta pkt hred
  cases bg with
  | false =>
    cases ts with
    | none =>
      rw [push_caughtup_noevict nom mx sr dep fb lb lp oc ec ovc t false none []
            pkt hdata heq hdep, if_pos hlen,
          if_neg (show ¬((false : Bool) = true ∧ (none : Option Nat) = none) by simp),
          List.nil_append]
      refine ⟨rfl, rfl, rfl, rfl, ?_⟩
      dsimp only
      rw [pop, popGate_playout nom mx sr (u32add dep pkt.payload_ms)
            (ntohs16 pkt.seqRaw) (ntohs16 pkt.seqRaw) (ntohs16 pkt.seqRaw)
            oc ec ovc t2 none pkt [],
          popDeliver_normal_last nom mx sr (u32add dep pkt.payload_ms)
            (ntohs16 pkt.seqRaw) (ntohs16 pkt.seqRaw) (ntohs16 pkt.seqRaw)
            oc ec ovc none pkt (Or.inl rfl), hpkt]
      exact Or.inr ⟨rfl, rfl⟩
    | some u =>
      rw [push_caughtup_noevict nom mx sr dep fb lb lp oc ec ovc t false (some u) []
            pkt hdata heq hdep, if_pos hlen,
          if_neg (show ¬((false : Bool) = true ∧ (some u : Option Nat) = none) by simp),
          List.nil_append]
      refine ⟨rfl, rfl, rfl, rfl, ?_⟩
      dsimp only
      rw [pop, popGate_playout nom mx sr (u32add dep pkt.payload_ms)
            (ntohs16 pkt.seqRaw) (ntohs16 pkt.seqRaw) (ntohs16 pkt.seqRaw)
            oc ec ovc t2 (some u) pkt [],
          popDeliver_normal_last nom mx sr (u32add dep pkt.payload_ms)
            (ntohs16 pkt.seqRaw) (ntohs16 pkt.seqRaw) (ntohs16 pkt.seqRaw)
            oc ec ovc (some u) pkt (Or.inl rfl), hpkt]
      exact Or.inr ⟨rfl, rfl⟩
  | true =>
    cases ts with
    | none =>
      rw [push_caughtup_noevict nom mx sr dep fb lb lp oc ec ovc t true none []
            pkt hdata heq hdep, if_pos hlen,
          if_pos (show (true : Bool) = true ∧ (none : Option Nat) = none from ⟨rfl, rfl⟩),
          List.nil_append]
      refine ⟨rfl, rfl, rfl, rfl, ?_⟩
      dsimp only
      by_cases hc : nom ≤ t2 - t ∨ nom ≤ u32add dep pkt.payload_ms
      · rw [pop, popGate_exit nom mx sr (u32add dep pkt.payload_ms)
              (ntohs16 pkt.seqRaw) (ntohs16 pkt.seqRaw) (ntohs16 pkt.seqRaw)
              oc ec ovc t2 t pkt [] hc,
            popDeliver_normal_last nom mx sr (u32add dep pkt.payload_ms)
              (ntohs16 pkt.seqRaw) (ntohs16 pkt.seqRaw) (ntohs16 pkt.seqRaw)
              oc ec ovc none pkt (Or.inl rfl), hpkt]
        exact Or.inr ⟨rfl, rfl⟩
      · push_neg at hc
        rw [pop, popGate_stay nom mx sr (u32add dep pkt.payload_ms)
              (ntohs16 pkt.seqRaw) (ntohs16 pkt.seqRaw) (ntohs16 pkt.seqRaw)
              oc ec ovc t2 t pkt []
              (Nat.not_le.mpr hc.1) (Nat.not_le.mpr hc.2),
            popDeliver_buffering _ rfl]
        exact Or.inl ⟨rfl, rfl, rfl, rfl⟩
    | some u =>
      rw [push_caughtup_noevict nom mx sr dep fb lb lp oc ec ovc t true (some u) []
            pkt hdata heq hdep, if_pos hlen,
          if_neg (show ¬((true : Bool) = true ∧ (some u : Option Nat) = none) by simp),
          List.nil_append]
      refine ⟨rfl, rfl, rfl, rfl, ?_⟩
      dsimp only
      by_cases hc : nom ≤ t2 - u ∨ nom ≤ u32add dep pkt.payload_ms
      · rw [pop, popGate_exit nom mx sr (u32add dep pkt.payload_ms)
              (ntohs16 pkt.seqRaw) (ntohs16 pkt.seqRaw) (ntohs16 pkt.seqRaw)
              oc ec ovc t2 u pkt [] hc,
            popDeliver_normal_last nom mx sr (u32add dep pkt.payload_ms)
              (ntohs16 pkt.seqRaw) (ntohs16 pkt.seqRaw) (ntohs16 pkt.seqRaw)
              oc ec ovc none pkt (Or.inl rfl), hpkt]
        exact Or.inr ⟨rfl, rfl⟩
      · push_neg at hc
        rw [pop, popGate_stay nom mx sr (u32add dep pkt.payload_ms)
              (ntohs16 pkt.seqRaw) (ntohs16 pkt.seqRaw) (ntohs16 pkt.seqRaw)
              oc ec ovc t2 u pkt []
              (Nat.not_le.mpr hc.1) (Nat.not_le.mpr hc.2),
            popDeliver_buffering _ rfl]
        exact Or.inl ⟨rfl, rfl, rfl, rfl⟩

/-- witness for C9_append_empty_sets_counters: P(5) pushed into a fresh 60 ms
buffer at t = 0; the pop at t = 3 is still buffering. -/
theorem C9_append_empty_sets_counters_witness :
    ((initState 60 8000).buffer = [] ∧
     (initState 60 8000).last_pop_sequence = (initState 60 8000).first_buf_sequence ∧
     (initState 60 8000).depth_ms ≤ (initState 60 8000).max_buffer_depth ∧
     (mkpkt 5 20 0).hasData = true ∧
     (mkpkt 5 20 0).use_redundant_payload = false) ∧
    ((push (initState 60 8000) 0 (some (mkpkt 5 20 0))).2 = RESULT.SUCCESS ∧
     (push (initState 60 8000) 0 (some (mkpkt 5 20 0))).1.buffer = [mkpkt 5 20 0] ∧
     (push (initState 60 8000) 0 (some (mkpkt 5 20 0))).1.first_buf_sequence
       = ntohs16 (mkpkt 5 20 0).seqRaw ∧
     (push (initState 60 8000) 0 (some (mkpkt 5 20 0))).1.last_pop_sequence
       = ntohs16 (mkpkt 5 20 0).seqRaw ∧
     (((pop (push (initState 60 8000) 0 (some (mkpkt 5 20 0))).1 3).2.1 = RESULT.BUFFERING ∧
       (pop (push (initState 60 8000) 0 (some (mkpkt 5 20 0))).1 3).1.buffer = [mkpkt 5 20 0] ∧
       (pop (push (initState 60 8000) 0 (some (mkpkt 5 20 0))).1 3).1.first_buf_sequence
         = ntohs16 (mkpkt 5 20 0).seqRaw ∧
       (pop (push (initState 60 8000) 0 (some (mkpkt 5 20 0))).1 3).1.last_pop_sequence
         = ntohs16 (mkpkt 5 20 0).seqRaw) ∨
      ((pop (push (initState 60 8000) 0 (some (mkpkt 5 20 0))).1 3).2.1 = RESULT.SUCCESS ∧
       (pop (push (initState 60 8000) 0 (some (mkpkt 5 20 0))).1 3).2.2 = some (mkpkt 5 20 0)))) :=
  ⟨⟨by decide, by decide, by decide, by decide, by decide⟩,
   C9_append_empty_sets_counters (initState 60 8000) (mkpkt 5 20 0) 0 3
     (by decide) (by decide) (by decide) (by decide) (by decide)⟩
